import Mathlib

/-!
Verification of the emission-calculator core of `src/Am.py`.

The script computes greenhouse-gas emissions for a Standard versus an
additive-manufacturing (AM) turbine-blade route over four lifecycle
stages (Material, Manufacturing, Transport, Downtime), compares them
across national grid-emission factors, and derives totals and
percentage reductions.  All numeric values are modelled as rationals
(`ℚ`); the Python source uses IEEE floats, but every claim checked here
is about the exact arithmetic formulas, which the rational model
captures.
-/

/-- The numeric input parameters of the calculator: the `defaults_num`
dictionary of `src/Am.py` (lines 21-37), edited by the input form and
read by every computation on the results page.  Field order follows the
source dictionary. -/
structure ProcessParams where
  raw_weight : ℚ
  finished_weight : ℚ
  material_emission : ℚ
  energy_standard : ℚ
  energy_am : ℚ
  argon_use_am : ℚ
  argon_emission_factor : ℚ
  transport_standard_km : ℚ
  transport_am_km : ℚ
  transport_factor_air : ℚ
  downtime_standard_months : ℚ
  downtime_am_weeks : ℚ
  efficiency_loss : ℚ
  turbine_output : ℚ
  grid_germany : ℚ

/-- The default parameter values of `defaults_num` (src/Am.py lines 21-37):
raw_weight 4, finished_weight 3.2, material_emission 22, energy_standard 150,
energy_am 90, argon_use_am 2, argon_emission_factor 0.5,
transport_standard_km 9000, transport_am_km 500, transport_factor_air 0.6,
downtime_standard_months 6, downtime_am_weeks 2, efficiency_loss 0.02,
turbine_output 50, grid_germany 0.4. -/
def defaults_num : ProcessParams :=
  ⟨4, 3.2, 22, 150, 90, 2, 0.5, 9000, 500, 0.6, 6, 2, 0.02, 50, 0.4⟩

/-- The fixed country catalog `grid_mix_dict` of src/Am.py lines 39-50,
as an ordered association list (Python dicts preserve insertion order). -/
def grid_mix_dict : List (String × ℚ) :=
  [("Germany", 0.4), ("USA", 0.25), ("China", 0.75), ("Japan", 0.43),
   ("France", 0.07), ("UK", 0.27), ("India", 0.71), ("Brazil", 0.08),
   ("Australia", 0.58), ("Canada", 0.16)]

/-- `material_co2` of src/Am.py lines 57-58: `raw_weight * factor`. -/
def material_co2 (raw_weight factor : ℚ) : ℚ :=
  raw_weight * factor

/-- `manufacturing_co2` of src/Am.py lines 60-61:
`(energy_kwh * grid_mix) + (gas * gas_factor)`.  The Python defaults
`gas=0, gas_factor=0` are passed explicitly at each call site below. -/
def manufacturing_co2 (energy_kwh grid_mix gas gas_factor : ℚ) : ℚ :=
  (energy_kwh * grid_mix) + (gas * gas_factor)

/-- `transport_co2` of src/Am.py lines 63-64: `weight_tons * km * factor`. -/
def transport_co2 (weight_tons km factor : ℚ) : ℚ :=
  weight_tons * km * factor

/-- `downtime_co2` of src/Am.py lines 66-67:
`(output_mw * loss_rate * hours) * grid_mix`. -/
def downtime_co2 (output_mw loss_rate hours grid_mix : ℚ) : ℚ :=
  (output_mw * loss_rate * hours) * grid_mix

/-- `weight_tons_std` (src/Am.py line 122): finished weight in tonnes. -/
def weight_tons_std (p : ProcessParams) : ℚ :=
  p.finished_weight / 1000

/-- `weight_tons_am` (src/Am.py line 123): same finished weight in tonnes. -/
def weight_tons_am (p : ProcessParams) : ℚ :=
  p.finished_weight / 1000

/-- `hours_std` (src/Am.py line 125): downtime months converted to hours,
`months * 30 * 24`. -/
def hours_std (p : ProcessParams) : ℚ :=
  p.downtime_standard_months * 30 * 24

/-- `hours_am` (src/Am.py line 126): downtime weeks converted to hours,
`weeks * 7 * 24`. -/
def hours_am (p : ProcessParams) : ℚ :=
  p.downtime_am_weeks * 7 * 24

/-- `mat_std` (src/Am.py line 129): material emission with the raw mass. -/
def mat_std (p : ProcessParams) : ℚ :=
  material_co2 p.raw_weight p.material_emission

/-- `mat_am` (src/Am.py line 130): material emission with the finished mass. -/
def mat_am (p : ProcessParams) : ℚ :=
  material_co2 p.finished_weight p.material_emission

/-- `transport_std` (src/Am.py line 135). -/
def transport_std (p : ProcessParams) : ℚ :=
  transport_co2 (weight_tons_std p) p.transport_standard_km p.transport_factor_air

/-- `transport_am` (src/Am.py line 136). -/
def transport_am (p : ProcessParams) : ℚ :=
  transport_co2 (weight_tons_am p) p.transport_am_km p.transport_factor_air

/-- The guarded percentage-reduction expression of src/Am.py line 377:
`((total_std_c - total_am_c) / total_std_c * 100) if total_std_c > 0 else 0`. -/
def reduction_pct (total_std_c total_am_c : ℚ) : ℚ :=
  if total_std_c > 0 then (total_std_c - total_am_c) / total_std_c * 100 else 0

/-- The "Standard" column of `df_country` (src/Am.py lines 177-181) for a
selected grid factor: stage values Material, Manufacturing, Transport,
Downtime in that order.  `mat_std` and `transport_std` are the values
computed once at lines 129 and 135 and reused for every country. -/
def df_country_standard (p : ProcessParams) (grid_val : ℚ) : List ℚ :=
  [mat_std p,
   manufacturing_co2 p.energy_standard grid_val 0 0,
   transport_std p,
   downtime_co2 p.turbine_output p.efficiency_loss (hours_std p) grid_val]

/-- The "AM" column of `df_country` (src/Am.py lines 177-181). -/
def df_country_am (p : ProcessParams) (grid_val : ℚ) : List ℚ :=
  [mat_am p,
   manufacturing_co2 p.energy_am grid_val p.argon_use_am p.argon_emission_factor,
   transport_am p,
   downtime_co2 p.turbine_output p.efficiency_loss (hours_am p) grid_val]

/-- One row of the multi-country comparison table (`comparison_data`,
src/Am.py lines 239-260): country name and the Standard-process stage
values plus their total. -/
structure ComparisonRow where
  country : String
  material : ℚ
  manufacturing : ℚ
  transport : ℚ
  downtime : ℚ
  total : ℚ

/-- The loop body of src/Am.py lines 248-260 for one selected country:
Material and Transport reuse `mat_std` and `transport_std`; Manufacturing
and Downtime are recomputed with the country's grid factor. -/
def comparison_row (p : ProcessParams) (country : String) (grid_val : ℚ) :
    ComparisonRow :=
  let manuf_c := manufacturing_co2 p.energy_standard grid_val 0 0
  let downtime_c := downtime_co2 p.turbine_output p.efficiency_loss (hours_std p) grid_val
  ⟨country, mat_std p, manuf_c, transport_std p, downtime_c,
   mat_std p + manuf_c + transport_std p + downtime_c⟩

/-- The `comparison_data` loop of src/Am.py lines 248-260: one row appended
per selected country, in iteration order.  The source iterates country
names and looks each up in `grid_mix_dict`; here the (name, factor)
pairs are supplied directly. -/
def comparison_data (p : ProcessParams) (selected : List (String × ℚ)) :
    List ComparisonRow :=
  selected.map fun cg => comparison_row p cg.1 cg.2

/-- `round(x, n)` as used at src/Am.py lines 380-382, modelled as exact
decimal rounding on ℚ (Python's float rounding agrees except at exact
representation ties, which none of the checked claims depend on). -/
def round_dec (n : ℕ) (x : ℚ) : ℚ :=
  (round (x * 10 ^ n) : ℤ) / 10 ^ n

/-- One row of `results_data` (src/Am.py lines 358-382): country,
rounded Baseline total, rounded AM total, rounded reduction percentage. -/
structure ResultRow where
  country : String
  baseline : ℚ
  am_scenario : ℚ
  reduction : ℚ

/-- Baseline (Standard) total for one country, src/Am.py lines 367-369:
`mat_std + manuf_std_c + transport_std + downtime_std_c`. -/
def total_std_c (p : ProcessParams) (grid_val : ℚ) : ℚ :=
  mat_std p + manufacturing_co2 p.energy_standard grid_val 0 0 +
    transport_std p +
    downtime_co2 p.turbine_output p.efficiency_loss (hours_std p) grid_val

/-- AM total for one country, src/Am.py lines 372-374:
`mat_am + manuf_am_c + transport_am + downtime_am_c`. -/
def total_am_c (p : ProcessParams) (grid_val : ℚ) : ℚ :=
  mat_am p + manufacturing_co2 p.energy_am grid_val p.argon_use_am p.argon_emission_factor +
    transport_am p +
    downtime_co2 p.turbine_output p.efficiency_loss (hours_am p) grid_val

/-- The loop body of src/Am.py lines 365-382 for one country. -/
def result_row (p : ProcessParams) (country : String) (grid_val : ℚ) :
    ResultRow :=
  ⟨country,
   round_dec 2 (total_std_c p grid_val),
   round_dec 2 (total_am_c p grid_val),
   round_dec 1 (reduction_pct (total_std_c p grid_val) (total_am_c p grid_val))⟩

/-- The `results_data` loop of src/Am.py lines 365-382: one row appended per
entry of the grid-profile collection, in iteration order. -/
def results_data (p : ProcessParams) (grid_profiles : List (String × ℚ)) :
    List ResultRow :=
  grid_profiles.map fun cg => result_row p cg.1 cg.2

/-- Parameter set with every magnitude zero except the AM shielding-gas
pair (argon_use_am 2, argon_emission_factor 0.5): a valid all-non-negative
input on which the Standard total is 0 and the AM total is 1. -/
def zero_params : ProcessParams :=
  ⟨0, 0, 0, 0, 0, 2, 0.5, 0, 0, 0, 0, 0, 0, 0, 0.4⟩

/-- C1.  The spec requires `reduction_percent(0, x)` to be explicitly
signaled as undefined, never silently zero.  The code at src/Am.py line
377 instead returns the plain number 0 whenever the Standard total is
not positive: on `zero_params` (a valid non-negative input) the Standard
total is 0, the AM total is 1, and the displayed reduction is 0. -/
theorem c1_reduction_pct_silently_zero :
    total_std_c zero_params (2/5) = 0 ∧
    total_am_c zero_params (2/5) = 1 ∧
    reduction_pct (total_std_c zero_params (2/5)) (total_am_c zero_params (2/5)) = 0 := by
  refine ⟨?_, ?_, ?_⟩ <;>
    norm_num [total_std_c, total_am_c, reduction_pct, mat_std, mat_am,
      manufacturing_co2, transport_std, transport_am, transport_co2,
      downtime_co2, hours_std, hours_am, weight_tons_std, weight_tons_am,
      material_co2, zero_params]

/-- C2.  Both cross-country loops produce exactly one row per input grid
profile, the rows carry the input countries in the input order, and an
empty profile collection yields an empty result sequence. -/
theorem c2_compare_across_grids_row_per_profile :
    ∀ (p : ProcessParams) (ps : List (String × ℚ)),
      (results_data p ps).length = ps.length ∧
      (results_data p ps).map (fun r => r.country) = ps.map (fun cg => cg.1) ∧
      (comparison_data p ps).length = ps.length ∧
      (comparison_data p ps).map (fun r => r.country) = ps.map (fun cg => cg.1) ∧
      results_data p [] = [] ∧
      comparison_data p [] = [] := by
  intro p ps
  refine ⟨?_, ?_, ?_, ?_, rfl, rfl⟩ <;>
    simp [results_data, comparison_data, result_row, comparison_row]

/-- C3.  Material emission is mass times material emission factor, with the
raw mass for the Standard route and the finished mass for the AM route;
at the default parameters (raw 4 kg, finished 3.2 kg, factor 22) the
Standard value is 88 and the AM value is 70.4 kg CO2e. -/
theorem c3_material_emission :
    (∀ p : ProcessParams,
        mat_std p = p.raw_weight * p.material_emission ∧
        mat_am p = p.finished_weight * p.material_emission) ∧
    mat_std defaults_num = 88 ∧ mat_am defaults_num = 70.4 := by
  refine ⟨fun p => ⟨rfl, rfl⟩, ?_, ?_⟩ <;>
    norm_num [mat_std, mat_am, material_co2, defaults_num]

/-- C4.  Downtime emission is output × loss fraction × hours × grid factor,
with months converted at 720 hours per month and weeks at 168 hours per
week; 6 months give 4320 hours, and 50 MW, loss 0.02, grid 0.4 give
1728 kg CO2e. -/
theorem c4_downtime_conversion :
    (∀ out loss h g : ℚ, downtime_co2 out loss h g = out * loss * h * g) ∧
    (∀ p : ProcessParams,
        hours_std p = 720 * p.downtime_standard_months ∧
        hours_am p = 168 * p.downtime_am_weeks) ∧
    hours_std defaults_num = 4320 ∧
    downtime_co2 50 0.02 (hours_std defaults_num) 0.4 = 1728 := by
  refine ⟨fun out loss h g => rfl,
    fun p => ⟨by unfold hours_std; ring, by unfold hours_am; ring⟩, ?_, ?_⟩ <;>
    norm_num [hours_std, downtime_co2, defaults_num]

/-- C5.  Manufacturing emission is energy × grid factor + gas volume × gas
factor; with both gas arguments zero it is exactly energy × grid factor;
150 kWh at grid 0.4 give 60, and 90 kWh at grid 0.4 with 2 m³ of gas at
factor 0.5 give 37 kg CO2e. -/
theorem c5_manufacturing_emission :
    (∀ e g : ℚ, manufacturing_co2 e g 0 0 = e * g) ∧
    manufacturing_co2 150 0.4 0 0 = 60 ∧
    manufacturing_co2 90 0.4 2 0.5 = 37 := by
  refine ⟨fun e g => by simp [manufacturing_co2], ?_, ?_⟩ <;>
    norm_num [manufacturing_co2]

/-- C6.  Transport emission is linear in distance: doubling the distance
doubles the result, all else fixed. -/
theorem c6_transport_linear_in_distance :
    ∀ w d f : ℚ, transport_co2 w d f * 2 = transport_co2 w (2 * d) f := by
  intro w d f
  unfold transport_co2
  ring

/-- C7.  Downtime emission is linear in the efficiency loss fraction:
doubling the fraction doubles the result, all else fixed. -/
theorem c7_downtime_linear_in_loss :
    ∀ out loss h g : ℚ,
      downtime_co2 out (2 * loss) h g = 2 * downtime_co2 out loss h g := by
  intro out loss h g
  unfold downtime_co2
  ring

/-- C8.  When the Standard and AM totals are equal and the Standard total is
nonzero, the computed percentage reduction is exactly zero. -/
theorem c8_reduction_pct_equal_totals (S : ℚ) (hS : S ≠ 0) :
    reduction_pct S S = 0 := by
  unfold reduction_pct
  split_ifs with h
  · simp
  · rfl

/-- Witness for C8 at S = 5. -/
theorem c8_reduction_pct_equal_totals_witness :
    (5 : ℚ) ≠ 0 ∧ reduction_pct 5 5 = 0 :=
  ⟨by norm_num, c8_reduction_pct_equal_totals 5 (by norm_num)⟩

/-- C9.  The Material (index 0) and Transport (index 2) stage values of both
scenario columns, and of every multi-country comparison row, do not
depend on the grid factor: evaluating with any two grid factors gives
the same Material and Transport entries. -/
theorem c9_material_transport_grid_independent :
    ∀ (p : ProcessParams) (g1 g2 : ℚ) (c : String),
      (df_country_standard p g1)[0]? = (df_country_standard p g2)[0]? ∧
      (df_country_standard p g1)[2]? = (df_country_standard p g2)[2]? ∧
      (df_country_am p g1)[0]? = (df_country_am p g2)[0]? ∧
      (df_country_am p g1)[2]? = (df_country_am p g2)[2]? ∧
      (comparison_row p c g1).material = (comparison_row p c g2).material ∧
      (comparison_row p c g1).transport = (comparison_row p c g2).transport := by
  intro p g1 g2 c
  exact ⟨rfl, rfl, rfl, rfl, rfl, rfl⟩

/-- C10.  With non-negative process parameters, both per-country totals are
monotone non-decreasing in the grid emission factor. -/
theorem c10_totals_monotone_in_grid (p : ProcessParams) (g1 g2 : ℚ)
    (he : 0 ≤ p.energy_standard) (hea : 0 ≤ p.energy_am)
    (ht : 0 ≤ p.turbine_output) (hl : 0 ≤ p.efficiency_loss)
    (hm : 0 ≤ p.downtime_standard_months) (hw : 0 ≤ p.downtime_am_weeks)
    (hg : g1 ≤ g2) :
    total_std_c p g1 ≤ total_std_c p g2 ∧ total_am_c p g1 ≤ total_am_c p g2 := by
  have hhs : (0 : ℚ) ≤ hours_std p := by
    unfold hours_std
    exact mul_nonneg (mul_nonneg hm (by norm_num)) (by norm_num)
  have hha : (0 : ℚ) ≤ hours_am p := by
    unfold hours_am
    exact mul_nonneg (mul_nonneg hw (by norm_num)) (by norm_num)
  have h1 : p.energy_standard * g1 ≤ p.energy_standard * g2 :=
    mul_le_mul_of_nonneg_left hg he
  have h2 : p.energy_am * g1 ≤ p.energy_am * g2 :=
    mul_le_mul_of_nonneg_left hg hea
  have hds : p.turbine_output * p.efficiency_loss * hours_std p * g1 ≤
      p.turbine_output * p.efficiency_loss * hours_std p * g2 :=
    mul_le_mul_of_nonneg_left hg (mul_nonneg (mul_nonneg ht hl) hhs)
  have hda : p.turbine_output * p.efficiency_loss * hours_am p * g1 ≤
      p.turbine_output * p.efficiency_loss * hours_am p * g2 :=
    mul_le_mul_of_nonneg_left hg (mul_nonneg (mul_nonneg ht hl) hha)
  constructor <;>
    · simp only [total_std_c, total_am_c, manufacturing_co2, downtime_co2]
      linarith

/-- Witness for C10 at the default parameters with grid factors 1/4 (USA)
and 2/5 (Germany). -/
theorem c10_totals_monotone_in_grid_witness :
    (1/4 : ℚ) ≤ 2/5 ∧
    (total_std_c defaults_num (1/4) ≤ total_std_c defaults_num (2/5) ∧
     total_am_c defaults_num (1/4) ≤ total_am_c defaults_num (2/5)) :=
  ⟨by norm_num,
   c10_totals_monotone_in_grid defaults_num (1/4) (2/5)
     (by norm_num [defaults_num]) (by norm_num [defaults_num])
     (by norm_num [defaults_num]) (by norm_num [defaults_num])
     (by norm_num [defaults_num]) (by norm_num [defaults_num])
     (by norm_num)⟩
